import Mathlib

/-!
Verification of the artifact resolution and download pipeline in
src/build.js: the link resolver (generateDownloadLink), the downloader
(downloadFile) and the orchestrator (installAllSoftware), shallowly
embedded as pure state-passing Lean functions.

Modelling conventions:
- A JavaScript throw is an Except.error value.
- The filesystem is the list of paths of files that exist; directories
  are not tracked (mkdir has no observable effect on the claims).
- The network is a function from URL to a NetResult: either a response
  with a status code and a Location header, or a network-level error.
  Issued requests are logged in DlState.requests, so absence of network
  input-output is visible as an unchanged request log.
- The unbounded redirect recursion of downloadFile is embedded with a
  fuel parameter bounding the number of redirects that may be followed;
  the value none models divergence of the JavaScript on an unbounded
  redirect chain.
-/

namespace Build

/-- Result of the JavaScript property read on an object literal: the own
property (here always a string), a member inherited from
Object.prototype, or undefined when the name is neither. -/
inductive PropLookup where
  | ownString (s : String)
  | inheritedMember (name : String)
  | undefined
deriving DecidableEq, Repr

/-- The property names every object literal inherits from
Object.prototype: its eleven methods and the accessor named
underscore-underscore-proto. A bracket read of any of these names on the
downloadPrefixes literal returns a function or an object, never
undefined. -/
def objectPrototypeProps : List String :=
  ["constructor", "hasOwnProperty", "isPrototypeOf", "propertyIsEnumerable",
   "toLocaleString", "toString", "valueOf",
   "__defineGetter__", "__defineSetter__", "__lookupGetter__", "__lookupSetter__",
   "__proto__"]

/-- Truthiness of a looked-up value under the JavaScript negation check
of src/build.js line 32: undefined is falsy, a string is falsy exactly
when empty, and an inherited member (a function or an object) is always
truthy. -/
def PropLookup.truthy : PropLookup → Bool
  | PropLookup.ownString s => s != ""
  | PropLookup.inheritedMember _ => true
  | PropLookup.undefined => false

/-- The string a template literal produces for the inherited member with
the given property name, as Node prints it: the constructor property is
the Object function, the proto accessor returns Object.prototype itself
which prints as a plain object, and every other member is a native
function printing under its own name. -/
def inheritedMemberString (name : String) : String :=
  if name == "__proto__" then "[object Object]"
  else if name == "constructor" then "function Object() \x7b [native code] \x7d"
  else "function " ++ name ++ "() \x7b [native code] \x7d"

/-- The string a template literal produces for a looked-up value (only
reached on truthy values in this program). -/
def PropLookup.asTemplateString : PropLookup → String
  | PropLookup.ownString s => s
  | PropLookup.inheritedMember name => inheritedMemberString name
  | PropLookup.undefined => "undefined"

/-- The bracket read downloadPrefixes of software in src/build.js line
31, on the object literal of lines 10 to 14: the three registered names
are own string properties; a name the literal inherits from
Object.prototype yields that truthy inherited member, not undefined;
every other name yields undefined. -/
def downloadPrefixes (software : String) : PropLookup :=
  if software == "jdk" then
    PropLookup.ownString "https://github.com/shenxinli/java-release/releases/download"
  else if software == "redis" then
    PropLookup.ownString "https://github.com/shenxinli/redis-release/releases/download"
  else if software == "postgresql" then
    PropLookup.ownString "https://github.com/shenxinli/postgresql-release/releases/download"
  else if software ∈ objectPrototypeProps then
    PropLookup.inheritedMember software
  else
    PropLookup.undefined

/-- Errors thrown by generateDownloadLink: the two Error cases of
src/build.js lines 33, 43, 51, 59. -/
inductive ResolveError where
  | unsupportedSoftware (software : String)
  | unsupportedPlatform (software platform : String)
deriving DecidableEq, Repr

/-- Embedding of generateDownloadLink (src/build.js lines 24 to 67).
The redis-on-windows version override comes first, then the bracket
lookup of the download base with its truthiness check (a falsy value
throws Unsupported software; an inherited Object.prototype member is
truthy and passes), then the per-software filename construction, then
the final URL assembly base ++ "/v" ++ version ++ "/" ++ filename, the
base being the template stringification of the looked-up value. -/
def generateDownloadLink (software version0 platform arch : String) :
    Except ResolveError String :=
  let version := if software == "redis" && platform == "windows" then "5" else version0
  let pl := downloadPrefixes software
  if !pl.truthy then
    Except.error (ResolveError.unsupportedSoftware software)
  else
    let filenameE : Except ResolveError String :=
      if software == "postgresql" then
        if platform == "windows" then
          Except.ok ("postgresql-" ++ version ++ "-windows-" ++ arch ++ ".zip")
        else if platform == "linux" then
          Except.ok ("postgresql-" ++ version ++ "-linux-" ++ arch ++ ".tar.gz")
        else
          Except.error (ResolveError.unsupportedPlatform software platform)
      else if software == "redis" then
        if platform == "windows" then
          Except.ok ("redis-" ++ version ++ "-windows-" ++ arch ++ ".zip")
        else if platform == "linux" then
          Except.ok ("redis-" ++ version ++ "-linux-" ++ arch ++ ".tar.gz")
        else
          Except.error (ResolveError.unsupportedPlatform software platform)
      else if software == "jdk" then
        if platform == "windows" then
          Except.ok ("openjdk-" ++ version ++ "-windows-" ++ arch ++ ".zip")
        else if platform == "linux" then
          Except.ok ("openjdk-" ++ version ++ "-linux-" ++ arch ++ ".tar.gz")
        else
          Except.error (ResolveError.unsupportedPlatform software platform)
      else
        Except.ok (software ++ "-" ++ version ++ "-" ++ platform ++ "-" ++ arch ++ ".tar.gz")
    match filenameE with
    | Except.error e => Except.error e
    | Except.ok filename =>
        Except.ok (pl.asTemplateString ++ "/v" ++ version ++ "/" ++ filename)

end Build

namespace Build

/-- What the network returns for one HTTP GET: either a response carrying a
status code and the Location header value, or a network-level error event
(connection failure or a mid-stream error, both delivered to the error
handler of src/build.js line 153). The response body is not modelled; a
status 200 response stands for a fully streamed body. -/
inductive NetResult where
  | response (statusCode : Nat) (location : String)
  | netError (msg : String)
deriving DecidableEq, Repr

/-- Errors with which downloadFile rejects: the HTTP status failure of
src/build.js line 115, and a propagated network-level error (line 158). -/
inductive DlError where
  | httpError (statusCode : Nat)
  | netError (msg : String)
deriving DecidableEq, Repr

/-- Observable state threaded through the downloader: the set of files
that exist on disk (as a list of paths) and the log of URLs requested
over the network, in order. -/
structure DlState where
  fs : List String
  requests : List String
deriving DecidableEq, Repr

/-- Create a file: the path is added to the filesystem if not present. -/
def addFile (fs : List String) (p : String) : List String :=
  if p ∈ fs then fs else p :: fs

/-- Delete a file: every occurrence of the path is removed; deleting an
absent file is a silent no-op, as the swallowed unlink failure of
src/build.js lines 155 to 157. -/
def removeFile (fs : List String) (p : String) : List String :=
  fs.filter (fun q => q ≠ p)

/-- Embedding of downloadFile (src/build.js lines 86 to 161), as a
state-passing function over DlState, parameterised by the network and by
a fuel bound on the number of requests; none models divergence on a
redirect chain longer than the fuel. Steps, in source order: if the
destination exists, return it at once (lines 88 to 92); otherwise create
the temporary file destinationPath ++ ".tmp" (line 99) and issue the GET
(line 105); on status 301 or 302 recurse on the Location header with the
same destination (lines 107 to 112); on any other non-200 status reject
with the status code, the temporary file left in place (lines 114 to
117); on status 200 stream the body and rename the temporary file onto
the destination (lines 141 to 152); on a network error delete the
temporary file and reject with the error (lines 153 to 159). -/
def downloadFile (net : String → NetResult) :
    Nat → String → String → DlState → Option (Except DlError String × DlState)
  | 0, _, destinationPath, s =>
      if destinationPath ∈ s.fs then some (Except.ok destinationPath, s) else none
  | fuel + 1, url, destinationPath, s =>
      if destinationPath ∈ s.fs then
        some (Except.ok destinationPath, s)
      else
        let tempPath := destinationPath ++ ".tmp"
        let s1 : DlState := ⟨addFile s.fs tempPath, s.requests ++ [url]⟩
        match net url with
        | NetResult.netError msg =>
            some (Except.error (DlError.netError msg),
                  ⟨removeFile s1.fs tempPath, s1.requests⟩)
        | NetResult.response code loc =>
            if code == 302 || code == 301 then
              downloadFile net fuel loc destinationPath s1
            else if code != 200 then
              some (Except.error (DlError.httpError code), s1)
            else
              some (Except.ok destinationPath,
                    ⟨addFile (removeFile s1.fs tempPath) destinationPath, s1.requests⟩)

/-- Strip the conventional -version suffix from a component key, the
embedding of componentKey.replace of src/build.js line 203, whose regular
expression removes one trailing occurrence of -version. -/
def component (componentKey : String) : String :=
  let cs := componentKey.data
  let suffix := ("-version").data
  if cs.drop (cs.length - suffix.length) = suffix then
    String.mk (cs.take (cs.length - suffix.length))
  else componentKey

/-- The characters after the last slash: fold over the characters,
extending the current segment and resetting it at each slash. -/
def lastSegment (cs : List Char) : List Char :=
  cs.foldl (fun seg c => if c = '/' then [] else seg ++ [c]) []

/-- The embedding of path.basename on a URL (src/build.js line 208): the
part after the last slash. It agrees with path.basename on every path
without a trailing separator, which every URL built here is. -/
def basename (p : String) : String :=
  ⟨lastSegment p.data⟩

/-- The destination path the orchestrator computes for one job
(src/build.js lines 207 and 208): root slash arch slash environment
slash bin slash the basename of the download URL. -/
def destinationFor (root arch envName url : String) : String :=
  root ++ "/" ++ arch ++ "/" ++ envName ++ "/bin/" ++ basename url

/-- Outcome of one (environment, component, version) job as the
orchestrator records it: ready, or failed with the error caught and
logged (src/build.js lines 205 to 218). -/
inductive JobOutcome where
  | ok (path : String)
  | failed
deriving DecidableEq, Repr

/-- One iteration of the inner loop of installAllSoftware (src/build.js
lines 201 to 219): resolve the link for the component and attempt the
download; any thrown resolution or download error is caught and turns
into a failed outcome, never into a failure of the whole loop. The none
value propagates only divergence (fuel exhaustion on redirects). -/
def runJob (net : String → NetResult) (fuel : Nat) (root platform arch : String)
    (envName componentKey version : String) (s : DlState) :
    Option (JobOutcome × DlState) :=
  match generateDownloadLink (component componentKey) version platform arch with
  | Except.error _ => some (JobOutcome.failed, s)
  | Except.ok url =>
    match downloadFile net fuel url (destinationFor root arch envName url) s with
    | none => none
    | some (Except.error _, s') => some (JobOutcome.failed, s')
    | some (Except.ok p, s') => some (JobOutcome.ok p, s')

/-- The inner loop of installAllSoftware over the entries of one
environment, in order, threading the state. -/
def installEnv (net : String → NetResult) (fuel : Nat)
    (root platform arch envName : String) :
    List (String × String) → DlState → Option (List JobOutcome × DlState)
  | [], s => some ([], s)
  | (componentKey, version) :: rest, s =>
    match runJob net fuel root platform arch envName componentKey version s with
    | none => none
    | some (o, s') =>
      match installEnv net fuel root platform arch envName rest s' with
      | none => none
      | some (os, s'') => some (o :: os, s'')

/-- Embedding of installAllSoftware (src/build.js lines 194 to 227): the
outer loop over environments, each contributing the outcomes of its
jobs, in order. The config is the parsed JSON object: a list of
environment names each with a list of componentKey and version pairs. -/
def installAllSoftware (net : String → NetResult) (fuel : Nat)
    (root platform arch : String) :
    List (String × List (String × String)) → DlState →
    Option (List JobOutcome × DlState)
  | [], s => some ([], s)
  | (envName, envConfig) :: rest, s =>
    match installEnv net fuel root platform arch envName envConfig s with
    | none => none
    | some (os, s') =>
      match installAllSoftware net fuel root platform arch rest s' with
      | none => none
      | some (os', s'') => some (os ++ os', s'')

/-- A network on which every GET answers with status 200. -/
def netAlways200 : String → NetResult := fun _ => NetResult.response 200 ""

/-- A network on which every GET answers with status 404. -/
def netAlways404 : String → NetResult := fun _ => NetResult.response 404 ""

/-- A network on which every GET answers with status 500. -/
def netAlways500 : String → NetResult := fun _ => NetResult.response 500 ""

/-- A network on which every GET fails with a connection reset. -/
def netAlwaysDown : String → NetResult := fun _ => NetResult.netError "ECONNRESET"

/-- The number of jobs a config describes: one per component entry per
environment. -/
def totalJobs (config : List (String × List (String × String))) : Nat :=
  (config.map (fun e => e.2.length)).sum

theorem mem_addFile {fs : List String} {p q : String} :
    q ∈ addFile fs p ↔ q ∈ fs ∨ q = p := by
  unfold addFile
  by_cases h : p ∈ fs
  · simp only [if_pos h]
    constructor
    · exact Or.inl
    · rintro (hq | rfl)
      · exact hq
      · exact h
  · simp [if_neg h, or_comm]

theorem mem_addFile_self (fs : List String) (p : String) : p ∈ addFile fs p :=
  mem_addFile.mpr (Or.inr rfl)

theorem not_mem_removeFile_self (fs : List String) (p : String) :
    p ∉ removeFile fs p := by
  unfold removeFile
  simp

theorem mem_of_mem_removeFile {fs : List String} {p q : String}
    (h : q ∈ removeFile fs p) : q ∈ fs := by
  unfold removeFile at h
  exact List.mem_of_mem_filter h

theorem ne_append_tmp (s : String) : s ≠ s ++ ".tmp" := by
  intro h
  have hlen : s.length = (s ++ ".tmp").length := congrArg String.length h
  have h4 : (".tmp" : String).length = 4 := rfl
  rw [String.length_append, h4] at hlen
  omega

/-- Every successful downloadFile run returns the destination path and
leaves a file at the destination path. -/
theorem downloadFile_ok_mem (net : String → NetResult) :
    ∀ (fuel : Nat) (url dest : String) (s : DlState) (p : String) (s' : DlState),
      downloadFile net fuel url dest s = some (Except.ok p, s') →
      p = dest ∧ dest ∈ s'.fs := by
  intro fuel
  induction fuel with
  | zero =>
    intro url dest s p s' h
    simp only [downloadFile] at h
    by_cases hd : dest ∈ s.fs
    · simp only [if_pos hd, Option.some.injEq, Prod.mk.injEq, Except.ok.injEq] at h
      obtain ⟨h1, h2⟩ := h
      subst h1; subst h2
      exact ⟨rfl, hd⟩
    · simp [if_neg hd] at h
  | succ fuel ih =>
    intro url dest s p s' h
    simp only [downloadFile] at h
    by_cases hd : dest ∈ s.fs
    · simp only [if_pos hd, Option.some.injEq, Prod.mk.injEq, Except.ok.injEq] at h
      obtain ⟨h1, h2⟩ := h
      subst h1; subst h2
      exact ⟨rfl, hd⟩
    · simp only [if_neg hd] at h
      cases hnet : net url with
      | response code loc =>
        rw [hnet] at h
        dsimp only at h
        by_cases h3 : (code == 302 || code == 301) = true
        · rw [if_pos h3] at h
          exact ih loc dest _ p s' h
        · rw [if_neg h3] at h
          by_cases h2 : (code != 200) = true
          · rw [if_pos h2] at h
            simp at h
          · rw [if_neg h2] at h
            simp only [Option.some.injEq, Prod.mk.injEq, Except.ok.injEq] at h
            obtain ⟨h1, hs⟩ := h
            subst h1
            refine ⟨rfl, ?_⟩
            rw [← hs]
            exact mem_addFile_self _ _
      | netError msg =>
        rw [hnet] at h
        dsimp only at h
        simp at h

end Build

namespace Build

/-- Claim C1: resolving redis on windows uses version 5 regardless of the
requested version: for every version and architecture, the URL is the
redis download base followed by /v5/redis-5-windows-(arch).zip. -/
theorem redis_windows_pins_v5 (version arch : String) :
    generateDownloadLink "redis" version "windows" arch =
      Except.ok
        ("https://github.com/shenxinli/redis-release/releases/download/v5/redis-5-windows-"
          ++ arch ++ ".zip") := by
  simp [generateDownloadLink, downloadPrefixes, PropLookup.truthy,
    PropLookup.asTemplateString, ← String.append_assoc]

/-- Claim C2, counterexample: for the software name nginx, which is outside
the set jdk, redis, postgresql, resolution does not succeed with the
generic fallback filename; it fails, because nginx is neither a registered
name nor a property the object literal inherits from Object.prototype, so
the bracket read yields undefined and the truthiness check throws before
the filename construction. -/
theorem fallback_counterexample :
    generateDownloadLink "nginx" "1" "linux" "amd64" =
      Except.error (ResolveError.unsupportedSoftware "nginx") := by
  rfl

/-- Claim C2, amended: for a software name outside jdk, redis and
postgresql, resolution succeeds exactly when the name is a property the
object literal inherits from Object.prototype (constructor, toString,
valueOf and the rest): the inherited member is truthy, so the check
passes and the returned URL carries the generic fallback filename
software-version-platform-arch.tar.gz with no platform validation, the
URL base being the stringified inherited member; for every other such
name the bracket read yields undefined and resolution fails with an
unsupported-software error. -/
theorem fallback_branch_behavior :
    (∀ software version platform arch,
       software ∈ objectPrototypeProps →
       generateDownloadLink software version platform arch =
         Except.ok (inheritedMemberString software ++ "/v" ++ version ++ "/" ++
           (software ++ "-" ++ version ++ "-" ++ platform ++ "-" ++ arch ++ ".tar.gz"))) ∧
    (∀ software version platform arch,
       software ≠ "jdk" → software ≠ "redis" → software ≠ "postgresql" →
       software ∉ objectPrototypeProps →
       generateDownloadLink software version platform arch =
         Except.error (ResolveError.unsupportedSoftware software)) := by
  constructor
  · intro software version platform arch hmem
    fin_cases hmem <;> rfl
  · intro software version platform arch h1 h2 h3 h4
    simp [generateDownloadLink, downloadPrefixes, PropLookup.truthy, h1, h2, h3, h4]

/-- Witness for the amended claim C2: resolution succeeds with the generic
fallback filename at the inherited name toString, on an unvalidated
platform, and fails at the name mysql, which is neither registered nor
inherited. -/
theorem fallback_branch_behavior_witness :
    ("toString" ∈ objectPrototypeProps ∧
      generateDownloadLink "toString" "9" "plan9" "mips" =
        Except.ok (inheritedMemberString "toString" ++ "/v" ++ "9" ++ "/" ++
          ("toString" ++ "-" ++ "9" ++ "-" ++ "plan9" ++ "-" ++ "mips" ++ ".tar.gz"))) ∧
    (("mysql" ≠ "jdk" ∧ "mysql" ≠ "redis" ∧ "mysql" ≠ "postgresql" ∧
        "mysql" ∉ objectPrototypeProps) ∧
      generateDownloadLink "mysql" "8" "linux" "amd64" =
        Except.error (ResolveError.unsupportedSoftware "mysql")) :=
  ⟨⟨by decide, fallback_branch_behavior.1 "toString" "9" "plan9" "mips" (by decide)⟩,
   ⟨⟨by decide, by decide, by decide, by decide⟩,
    fallback_branch_behavior.2 "mysql" "8" "linux" "amd64"
      (by decide) (by decide) (by decide) (by decide)⟩⟩

/-- Claim C8, counterexample: the software name toString has no registered
download prefix, yet resolution does not throw: the object literal
inherits a truthy toString member from Object.prototype, so the
truthiness check of src/build.js line 32 passes and the generic fallback
branch returns a URL built from the stringified inherited function. -/
theorem unregistered_name_resolves_counterexample :
    downloadPrefixes "toString" = PropLookup.inheritedMember "toString" ∧
    generateDownloadLink "toString" "1" "linux" "amd64" =
      Except.ok
        "function toString() \x7b [native code] \x7d/v1/toString-1-linux-amd64.tar.gz" :=
  ⟨rfl, rfl⟩

/-- Claim C8, amended: resolution fails for every software name that
neither has a registered download prefix nor names a property inherited
from Object.prototype (an inherited name is truthy, passes the check and
resolves through the generic fallback instead of throwing), and for each
of postgresql, redis and jdk it fails for every platform other than
linux and windows. -/
theorem resolve_failure_cases :
    (∀ software version platform arch,
       software ≠ "jdk" → software ≠ "redis" → software ≠ "postgresql" →
       software ∉ objectPrototypeProps →
       generateDownloadLink software version platform arch =
         Except.error (ResolveError.unsupportedSoftware software)) ∧
    (∀ software version platform arch,
       (software = "postgresql" ∨ software = "redis" ∨ software = "jdk") →
       platform ≠ "linux" → platform ≠ "windows" →
       generateDownloadLink software version platform arch =
         Except.error (ResolveError.unsupportedPlatform software platform)) := by
  constructor
  · intro software version platform arch h1 h2 h3 h4
    simp [generateDownloadLink, downloadPrefixes, PropLookup.truthy, h1, h2, h3, h4]
  · intro software version platform arch hs hl hw
    rcases hs with h | h | h <;> subst h <;>
      simp [generateDownloadLink, downloadPrefixes, PropLookup.truthy,
        PropLookup.asTemplateString, hl, hw]

/-- Witness for the amended claim C8: the concrete failures of resolving
etcd, a software name neither registered nor inherited, and of resolving
redis on the platform darwin. -/
theorem resolve_failure_cases_witness :
    (("etcd" ≠ "jdk" ∧ "etcd" ≠ "redis" ∧ "etcd" ≠ "postgresql" ∧
        "etcd" ∉ objectPrototypeProps) ∧
      generateDownloadLink "etcd" "3" "linux" "arm64" =
        Except.error (ResolveError.unsupportedSoftware "etcd")) ∧
    (("redis" = "postgresql" ∨ "redis" = "redis" ∨ "redis" = "jdk") ∧
      "darwin" ≠ "linux" ∧ "darwin" ≠ "windows" ∧
      generateDownloadLink "redis" "7" "darwin" "arm64" =
        Except.error (ResolveError.unsupportedPlatform "redis" "darwin")) :=
  ⟨⟨⟨by decide, by decide, by decide, by decide⟩,
    resolve_failure_cases.1 "etcd" "3" "linux" "arm64"
      (by decide) (by decide) (by decide) (by decide)⟩,
   ⟨Or.inr (Or.inl rfl), by decide, by decide,
    resolve_failure_cases.2 "redis" "7" "darwin" "arm64"
      (Or.inr (Or.inl rfl)) (by decide) (by decide)⟩⟩

/-- Claim C3: downloadFile is idempotent with respect to an existing
destination. If a file already exists at the destination path, the call
returns the destination path with the state unchanged, so in particular
the request log is unchanged and no network access happens; and after
any successful call the destination exists, so a second invocation
returns at once with the state again unchanged. -/
theorem download_idempotent (net : String → NetResult) (fuel : Nat)
    (url dest : String) (s : DlState) :
    (dest ∈ s.fs → downloadFile net fuel url dest s = some (Except.ok dest, s)) ∧
    (∀ fuel2 p s', downloadFile net fuel url dest s = some (Except.ok p, s') →
       downloadFile net fuel2 url dest s' = some (Except.ok p, s')) := by
  constructor
  · intro h
    cases fuel <;> simp [downloadFile, h]
  · intro fuel2 p s' h
    obtain ⟨hp, hmem⟩ := downloadFile_ok_mem net fuel url dest s p s' h
    subst hp
    cases fuel2 <;> simp [downloadFile, hmem]

/-- Witness for claim C3: a cache hit returns at once with the state
unchanged, and rerunning after a fresh successful download changes
nothing and issues no further request. -/
theorem download_idempotent_witness :
    ("/r/bin/a.tar.gz" ∈ (DlState.mk ["/r/bin/a.tar.gz"] []).fs ∧
      downloadFile netAlways200 2 "http://h/a.tar.gz" "/r/bin/a.tar.gz"
          ⟨["/r/bin/a.tar.gz"], []⟩ =
        some (Except.ok "/r/bin/a.tar.gz", ⟨["/r/bin/a.tar.gz"], []⟩)) ∧
    (downloadFile netAlways200 2 "http://h/a.tar.gz" "/r/bin/a.tar.gz" ⟨[], []⟩ =
        some (Except.ok "/r/bin/a.tar.gz",
              ⟨["/r/bin/a.tar.gz"], ["http://h/a.tar.gz"]⟩) ∧
      downloadFile netAlways200 5 "http://h/a.tar.gz" "/r/bin/a.tar.gz"
          ⟨["/r/bin/a.tar.gz"], ["http://h/a.tar.gz"]⟩ =
        some (Except.ok "/r/bin/a.tar.gz",
              ⟨["/r/bin/a.tar.gz"], ["http://h/a.tar.gz"]⟩)) :=
  ⟨⟨by decide,
    (download_idempotent netAlways200 2 "http://h/a.tar.gz" "/r/bin/a.tar.gz"
        ⟨["/r/bin/a.tar.gz"], []⟩).1 (by decide)⟩,
   ⟨by rfl,
    (download_idempotent netAlways200 2 "http://h/a.tar.gz" "/r/bin/a.tar.gz"
        ⟨[], []⟩).2 5 "/r/bin/a.tar.gz"
      ⟨["/r/bin/a.tar.gz"], ["http://h/a.tar.gz"]⟩ (by rfl)⟩⟩

/-- Claim C4: when the destination is not already present and the response
for the URL has a status code that is neither 200 nor 301 nor 302, the
download fails with an HTTP error carrying that status code, and no file
exists at the final destination path afterwards. -/
theorem download_http_error (net : String → NetResult) (fuel : Nat)
    (url dest : String) (s : DlState) (code : Nat) (loc : String)
    (hd : dest ∉ s.fs) (hn : net url = NetResult.response code loc)
    (h200 : code ≠ 200) (h301 : code ≠ 301) (h302 : code ≠ 302) :
    downloadFile net (fuel + 1) url dest s =
      some (Except.error (DlError.httpError code),
            ⟨addFile s.fs (dest ++ ".tmp"), s.requests ++ [url]⟩) ∧
    dest ∉ addFile s.fs (dest ++ ".tmp") := by
  constructor
  · simp only [downloadFile, if_neg hd, hn]
    rw [if_neg, if_pos]
    · simp [h200]
    · simp [h301, h302]
  · intro hmem
    rcases mem_addFile.mp hmem with h | h
    · exact hd h
    · exact ne_append_tmp dest h

/-- Witness for claim C4: a 404 response on an empty filesystem fails
with the status code 404 and creates no file at the destination. -/
theorem download_http_error_witness :
    ("/r/bin/b.zip" ∉ (DlState.mk [] []).fs ∧
      netAlways404 "http://h/b.zip" = NetResult.response 404 "" ∧
      (404 : Nat) ≠ 200 ∧ (404 : Nat) ≠ 301 ∧ (404 : Nat) ≠ 302) ∧
    (downloadFile netAlways404 1 "http://h/b.zip" "/r/bin/b.zip" ⟨[], []⟩ =
        some (Except.error (DlError.httpError 404),
              ⟨addFile [] ("/r/bin/b.zip" ++ ".tmp"), [] ++ ["http://h/b.zip"]⟩) ∧
      "/r/bin/b.zip" ∉ addFile [] ("/r/bin/b.zip" ++ ".tmp")) :=
  ⟨⟨by decide, rfl, by decide, by decide, by decide⟩,
   download_http_error netAlways404 0 "http://h/b.zip" "/r/bin/b.zip" ⟨[], []⟩
     404 "" (by decide) rfl (by decide) (by decide) (by decide)⟩

/-- Claim C10: on the same HTTP status failure as claim C4, the temporary
file destinationPath ++ ".tmp", created before the request was issued,
is not deleted and remains on disk; cleanup on this error path differs
from the network-error path, which does delete it. -/
theorem http_error_keeps_tmp (net : String → NetResult) (fuel : Nat)
    (url dest : String) (s : DlState) (code : Nat) (loc : String)
    (hd : dest ∉ s.fs) (hn : net url = NetResult.response code loc)
    (h200 : code ≠ 200) (h301 : code ≠ 301) (h302 : code ≠ 302) :
    downloadFile net (fuel + 1) url dest s =
      some (Except.error (DlError.httpError code),
            ⟨addFile s.fs (dest ++ ".tmp"), s.requests ++ [url]⟩) ∧
    (dest ++ ".tmp") ∈ addFile s.fs (dest ++ ".tmp") := by
  constructor
  · simp only [downloadFile, if_neg hd, hn]
    rw [if_neg, if_pos]
    · simp [h200]
    · simp [h301, h302]
  · exact mem_addFile_self _ _

/-- Witness for claim C10: after a 500 response the temporary file is
still on disk. -/
theorem http_error_keeps_tmp_witness :
    ("/r/bin/c.zip" ∉ (DlState.mk [] []).fs ∧
      netAlways500 "http://h/c.zip" = NetResult.response 500 "" ∧
      (500 : Nat) ≠ 200 ∧ (500 : Nat) ≠ 301 ∧ (500 : Nat) ≠ 302) ∧
    (downloadFile netAlways500 1 "http://h/c.zip"
        "/r/bin/c.zip" ⟨[], []⟩ =
        some (Except.error (DlError.httpError 500),
              ⟨addFile [] ("/r/bin/c.zip" ++ ".tmp"), [] ++ ["http://h/c.zip"]⟩) ∧
      ("/r/bin/c.zip" ++ ".tmp") ∈ addFile [] ("/r/bin/c.zip" ++ ".tmp")) :=
  ⟨⟨by decide, rfl, by decide, by decide, by decide⟩,
   http_error_keeps_tmp (fun _ => NetResult.response 500 "") 0 "http://h/c.zip"
     "/r/bin/c.zip" ⟨[], []⟩ 500 "" (by decide) rfl
     (by decide) (by decide) (by decide)⟩

/-- Claim C5: when the destination is not already present and the network
fails for the URL, the download deletes the temporary file
destinationPath ++ ".tmp", propagates the error to its caller, and does
not create a file at the final destination path. -/
theorem download_net_error (net : String → NetResult) (fuel : Nat)
    (url dest : String) (s : DlState) (msg : String)
    (hd : dest ∉ s.fs) (hn : net url = NetResult.netError msg) :
    downloadFile net (fuel + 1) url dest s =
      some (Except.error (DlError.netError msg),
            ⟨removeFile (addFile s.fs (dest ++ ".tmp")) (dest ++ ".tmp"),
             s.requests ++ [url]⟩) ∧
    (dest ++ ".tmp") ∉ removeFile (addFile s.fs (dest ++ ".tmp")) (dest ++ ".tmp") ∧
    dest ∉ removeFile (addFile s.fs (dest ++ ".tmp")) (dest ++ ".tmp") := by
  refine ⟨?_, not_mem_removeFile_self _ _, ?_⟩
  · simp only [downloadFile, if_neg hd, hn]
  · intro hmem
    rcases mem_addFile.mp (mem_of_mem_removeFile hmem) with h | h
    · exact hd h
    · exact ne_append_tmp dest h

/-- Witness for claim C5: a connection reset deletes the temporary file,
propagates the error, and leaves no destination file. -/
theorem download_net_error_witness :
    ("/r/bin/d.tar.gz" ∉ (DlState.mk [] []).fs ∧
      netAlwaysDown "http://h/d.tar.gz" = NetResult.netError "ECONNRESET") ∧
    (downloadFile netAlwaysDown 1 "http://h/d.tar.gz" "/r/bin/d.tar.gz" ⟨[], []⟩ =
        some (Except.error (DlError.netError "ECONNRESET"),
              ⟨removeFile (addFile [] ("/r/bin/d.tar.gz" ++ ".tmp"))
                 ("/r/bin/d.tar.gz" ++ ".tmp"), [] ++ ["http://h/d.tar.gz"]⟩) ∧
      ("/r/bin/d.tar.gz" ++ ".tmp") ∉
        removeFile (addFile [] ("/r/bin/d.tar.gz" ++ ".tmp"))
          ("/r/bin/d.tar.gz" ++ ".tmp") ∧
      "/r/bin/d.tar.gz" ∉
        removeFile (addFile [] ("/r/bin/d.tar.gz" ++ ".tmp"))
          ("/r/bin/d.tar.gz" ++ ".tmp")) :=
  ⟨⟨by decide, rfl⟩,
   download_net_error netAlwaysDown 0 "http://h/d.tar.gz" "/r/bin/d.tar.gz"
     ⟨[], []⟩ "ECONNRESET" (by decide) rfl⟩

/-- Claim C6, counterexample: a download can complete successfully while a
file named destinationPath ++ ".tmp" still exists afterwards. Start with
both the destination file and a stale temporary file on disk: the call is
a cache hit, succeeds at once, and leaves the temporary file in place, so
the claim does not hold of every successful download. -/
theorem success_leaves_tmp_counterexample :
    downloadFile netAlways200 1 "http://h/e.zip" "/r/bin/e.zip"
        ⟨["/r/bin/e.zip", "/r/bin/e.zip.tmp"], []⟩ =
      some (Except.ok "/r/bin/e.zip",
            ⟨["/r/bin/e.zip", "/r/bin/e.zip.tmp"], []⟩) ∧
    ("/r/bin/e.zip" ++ ".tmp") ∈
      (DlState.mk ["/r/bin/e.zip", "/r/bin/e.zip.tmp"] []).fs := by
  exact ⟨rfl, by decide⟩

/-- Claim C6, amended: for every download that completes successfully
starting from a state in which the destination file does not already
exist (so an actual transfer takes place and the temporary file is
renamed onto the destination on stream completion), the temporary file
destinationPath ++ ".tmp" no longer exists afterwards and a file exists
at exactly the requested destination path. -/
theorem download_success_cleanup (net : String → NetResult) :
    ∀ (fuel : Nat) (url dest : String) (s : DlState) (p : String) (s' : DlState),
      dest ∉ s.fs →
      downloadFile net fuel url dest s = some (Except.ok p, s') →
      p = dest ∧ dest ∈ s'.fs ∧ (dest ++ ".tmp") ∉ s'.fs := by
  intro fuel
  induction fuel with
  | zero =>
    intro url dest s p s' hd h
    simp [downloadFile, if_neg hd] at h
  | succ fuel ih =>
    intro url dest s p s' hd h
    simp only [downloadFile, if_neg hd] at h
    cases hnet : net url with
    | response code loc =>
      rw [hnet] at h
      dsimp only at h
      by_cases h3 : (code == 302 || code == 301) = true
      · rw [if_pos h3] at h
        refine ih loc dest _ p s' ?_ h
        intro hmem
        rcases mem_addFile.mp hmem with hx | hx
        · exact hd hx
        · exact ne_append_tmp dest hx
      · rw [if_neg h3] at h
        by_cases h2 : (code != 200) = true
        · rw [if_pos h2] at h
          simp at h
        · rw [if_neg h2] at h
          simp only [Option.some.injEq, Prod.mk.injEq, Except.ok.injEq] at h
          obtain ⟨h1, hs⟩ := h
          subst h1
          refine ⟨rfl, ?_, ?_⟩
          · rw [← hs]
            exact mem_addFile_self _ _
          · rw [← hs]
            intro hmem
            rcases mem_addFile.mp hmem with hx | hx
            · exact not_mem_removeFile_self _ _ hx
            · exact ne_append_tmp dest hx.symm
    | netError msg =>
      rw [hnet] at h
      dsimp only at h
      simp at h

/-- Witness for the amended claim C6: a fresh successful download leaves
exactly the destination file and no temporary file. -/
theorem download_success_cleanup_witness :
    ("/r/bin/f.zip" ∉ (DlState.mk [] []).fs ∧
      downloadFile netAlways200 1 "http://h/f.zip" "/r/bin/f.zip" ⟨[], []⟩ =
        some (Except.ok "/r/bin/f.zip",
              ⟨["/r/bin/f.zip"], ["http://h/f.zip"]⟩)) ∧
    ("/r/bin/f.zip" = "/r/bin/f.zip" ∧
      "/r/bin/f.zip" ∈ (DlState.mk ["/r/bin/f.zip"] ["http://h/f.zip"]).fs ∧
      ("/r/bin/f.zip" ++ ".tmp") ∉
        (DlState.mk ["/r/bin/f.zip"] ["http://h/f.zip"]).fs) :=
  ⟨⟨by decide, by rfl⟩,
   download_success_cleanup netAlways200 1 "http://h/f.zip" "/r/bin/f.zip"
     ⟨[], []⟩ "/r/bin/f.zip" ⟨["/r/bin/f.zip"], ["http://h/f.zip"]⟩
     (by decide) (by rfl)⟩

/-- Claim C7: for the config entry mapping the prod environment to
jdk-version 17, with platform linux and arch amd64, the component key
resolves to jdk, the resolver produces the documented java-release URL
for version 17, and the orchestrator computes the destination path
root slash amd64 slash prod slash bin slash the URL basename. -/
theorem end_to_end_jdk17 (root : String) :
    component "jdk-version" = "jdk" ∧
    generateDownloadLink "jdk" "17" "linux" "amd64" =
      Except.ok
        "https://github.com/shenxinli/java-release/releases/download/v17/openjdk-17-linux-amd64.tar.gz" ∧
    destinationFor root "amd64" "prod"
        "https://github.com/shenxinli/java-release/releases/download/v17/openjdk-17-linux-amd64.tar.gz" =
      root ++ "/amd64/prod/bin/openjdk-17-linux-amd64.tar.gz" := by
  refine ⟨rfl, rfl, ?_⟩
  have hb :
      basename
        "https://github.com/shenxinli/java-release/releases/download/v17/openjdk-17-linux-amd64.tar.gz" =
      "openjdk-17-linux-amd64.tar.gz" := rfl
  unfold destinationFor
  rw [hb]
  simp [String.append_assoc]

set_option maxHeartbeats 1600000 in
/-- The outcomes of one environment pass are in bijection with its
entries: one outcome per component entry, failed or not. -/
theorem installEnv_length (net : String → NetResult) (fuel : Nat)
    (root platform arch envName : String) :
    ∀ (entries : List (String × String)) (s : DlState)
      (outcomes : List JobOutcome) (s' : DlState),
      installEnv net fuel root platform arch envName entries s =
        some (outcomes, s') →
      outcomes.length = entries.length := by
  intro entries
  induction entries with
  | nil =>
    intro s outcomes s' h
    simp only [installEnv, Option.some.injEq, Prod.mk.injEq] at h
    rw [← h.1]
    rfl
  | cons entry rest ih =>
    obtain ⟨componentKey, version⟩ := entry
    intro s outcomes s' h
    simp only [installEnv] at h
    cases hj : runJob net fuel root platform arch envName componentKey version s with
    | none => rw [hj] at h; simp at h
    | some pr =>
      obtain ⟨o, s1⟩ := pr
      rw [hj] at h
      dsimp only at h
      cases he : installEnv net fuel root platform arch envName rest s1 with
      | none => rw [he] at h; simp at h
      | some pr2 =>
        obtain ⟨os, s2⟩ := pr2
        rw [he] at h
        simp only [Option.some.injEq, Prod.mk.injEq] at h
        rw [← h.1]
        simp [ih s1 os s2 he]

/-- Claim C9: a resolution or download error in one job never prevents a
later job from being attempted. Resolution and download errors inside a
job are caught by runJob and turned into a failed outcome, so whenever a
run of installAllSoftware completes, it reports exactly one outcome per
(environment, component, version) entry of the config, whatever mixture
of failures occurred along the way. -/
theorem orchestrator_attempts_all_jobs (net : String → NetResult) (fuel : Nat)
    (root platform arch : String) :
    ∀ (config : List (String × List (String × String))) (s : DlState)
      (outcomes : List JobOutcome) (s' : DlState),
      installAllSoftware net fuel root platform arch config s =
        some (outcomes, s') →
      outcomes.length = totalJobs config := by
  intro config
  induction config with
  | nil =>
    intro s outcomes s' h
    simp only [installAllSoftware, Option.some.injEq, Prod.mk.injEq] at h
    rw [← h.1]
    rfl
  | cons envEntry rest ih =>
    obtain ⟨envName, envConfig⟩ := envEntry
    intro s outcomes s' h
    simp only [installAllSoftware] at h
    cases he : installEnv net fuel root platform arch envName envConfig s with
    | none => rw [he] at h; simp at h
    | some pr =>
      obtain ⟨os, s1⟩ := pr
      rw [he] at h
      dsimp only at h
      cases hr : installAllSoftware net fuel root platform arch rest s1 with
      | none => rw [hr] at h; simp at h
      | some pr2 =>
        obtain ⟨os2, s2⟩ := pr2
        rw [hr] at h
        simp only [Option.some.injEq, Prod.mk.injEq] at h
        rw [← h.1]
        have h1 := installEnv_length net fuel root platform arch envName
          envConfig s os s1 he
        have h2 := ih s1 os2 s2 hr
        simp [totalJobs] at h2 ⊢
        omega

/-- Witness for claim C9: on a config whose first job fails to resolve
(no download base for the software nope) and whose second job succeeds,
the completed run still reports one outcome per job: the failure did not
stop the second job. -/
theorem orchestrator_attempts_all_jobs_witness :
    installAllSoftware netAlways200 1 "r" "linux" "amd64"
        [("prod", [("nope-version", "1"), ("jdk-version", "17")])] ⟨[], []⟩ =
      some ([JobOutcome.failed,
             JobOutcome.ok "r/amd64/prod/bin/openjdk-17-linux-amd64.tar.gz"],
            ⟨["r/amd64/prod/bin/openjdk-17-linux-amd64.tar.gz"],
             ["https://github.com/shenxinli/java-release/releases/download/v17/openjdk-17-linux-amd64.tar.gz"]⟩) ∧
    ([JobOutcome.failed,
      JobOutcome.ok "r/amd64/prod/bin/openjdk-17-linux-amd64.tar.gz"] :
        List JobOutcome).length =
      totalJobs [("prod", [("nope-version", "1"), ("jdk-version", "17")])] :=
  ⟨by rfl,
   orchestrator_attempts_all_jobs netAlways200 1 "r" "linux" "amd64"
     [("prod", [("nope-version", "1"), ("jdk-version", "17")])] ⟨[], []⟩
     [JobOutcome.failed,
      JobOutcome.ok "r/amd64/prod/bin/openjdk-17-linux-amd64.tar.gz"]
     ⟨["r/amd64/prod/bin/openjdk-17-linux-amd64.tar.gz"],
      ["https://github.com/shenxinli/java-release/releases/download/v17/openjdk-17-linux-amd64.tar.gz"]⟩
     (by rfl)⟩

end Build
